import Mathlib

/-!
# Verification of the supabase-dart-exporter schema renderers

Shallow embedding of the pure rendering core of the repository:

* `src/lib/utils/files.js` — `generateTableSQL`, `getActionType`,
  `generateDartModel`, `getDefaultValue`, `getDartType`;
* the SQL utility section of `src/lib/exporter.js` — `escapeSqlValue`,
  `formatInsert`;
* `DatabaseExporter.exportTables` from `src/lib/exporter.js` (its pure
  rendering/writing behaviour);
* the alternate converter's `getDartType` (`src/unnamed/part_003`).

JavaScript idioms are modelled explicitly: nullable / possibly-absent fields
become `Option`, JS truthiness on strings is `s ≠ ""`, on numbers `n ≠ 0`,
and fallible JS code (property access on `null`) returns `Except`.
-/

namespace SupabaseDartExporter

/-- JS-style substring test, one starting position at a time
    (models `String.prototype.includes` / an unanchored regex literal). -/
def strContainsAux (needle : List Char) : List Char → Bool
  | [] => needle.isPrefixOf ([] : List Char)
  | c :: rest => needle.isPrefixOf (c :: rest) || strContainsAux needle rest

/-- `strContains needle hay` models `hay.includes(needle)`. -/
def strContains (needle hay : String) : Bool :=
  strContainsAux needle.data hay.data

/-- ASCII lower-casing of one char (the inputs here are catalog type names
    and SQL literals, all ASCII). -/
def asciiToLower (c : Char) : Char :=
  if 'A' ≤ c ∧ c ≤ 'Z' then Char.ofNat (c.toNat + 32) else c

/-- `String.prototype.toLowerCase` on ASCII input. -/
def strToLower (s : String) : String :=
  String.mk (s.data.map asciiToLower)

/-- `String.prototype.startsWith`. -/
def strStartsWith (pre s : String) : Bool :=
  pre.data.isPrefixOf s.data

/-- `String.prototype.endsWith`. -/
def strEndsWith (suf s : String) : Bool :=
  suf.data.isSuffixOf s.data

/-- `String.prototype.trim`. -/
def strTrim (s : String) : String :=
  String.mk (((s.data.dropWhile Char.isWhitespace).reverse.dropWhile Char.isWhitespace).reverse)

/-- `String.prototype.split(',')`: split at every comma, keeping empty
    pieces (accumulator holds the current piece reversed). -/
def splitCommaAux : List Char → List Char → List String
  | [], acc => [String.mk acc.reverse]
  | c :: rest, acc =>
    if c = ',' then String.mk acc.reverse :: splitCommaAux rest []
    else splitCommaAux rest (c :: acc)

/-- Rendering of a possibly-absent string into a JS template literal:
    the pg driver delivers SQL NULL as JS `null`, which interpolates as
    `"null"`. -/
def jsTemplate : Option String → String
  | some s => s
  | none => "null"

/-- JS truthiness of a possibly-absent string (`undefined`, `null` and `""`
    are falsy). -/
def jsStrTruthy : Option String → Bool
  | some s => s != ""
  | none => false

/-- A raw column row as returned by `get_column_definitions`
    (see `generateTableSQL` / `generateDartModel` in
    `src/lib/utils/files.js`). -/
structure Column where
  column_name : String
  data_type : String
  character_maximum_length : Option Nat := none
  numeric_precision : Option Nat := none
  numeric_scale : Option Nat := none
  is_nullable : String := "YES"
  column_default : Option String := none
deriving Repr, DecidableEq

/-- A raw constraint row as returned by `get_table_constraints`
    (see `generateTableSQL` / `generateDartModel` in
    `src/lib/utils/files.js`). -/
structure Constraint where
  constraint_type : String
  constraint_name : String
  column_name : Option String := none
  foreign_table_name : Option String := none
  foreign_column_name : Option String := none
  confupdtype : Option String := none
  confdeltype : Option String := none
  check_clause : Option String := none
deriving Repr, DecidableEq

/-- `getActionType` from `src/lib/utils/files.js`: PostgreSQL referential
    action code to SQL keyword. -/
def getActionType (t : String) : String :=
  if t = "c" then "CASCADE"
  else if t = "n" then "SET NULL"
  else if t = "d" then "SET DEFAULT"
  else if t = "r" then "RESTRICT"
  else "NO ACTION"

/-- The ` ON UPDATE …` / ` ON DELETE …` suffix appended to a FOREIGN KEY
    constraint line by `generateTableSQL`: appended only when the action
    code is truthy and not `'a'` (NO ACTION). -/
def fkActionSuffix (keyword : String) (t : Option String) : String :=
  match t with
  | some s => if s ≠ "" ∧ s ≠ "a" then " ON " ++ keyword ++ " " ++ getActionType s else ""
  | none => ""

/-- One column line of the CREATE TABLE body (`generateTableSQL`,
    `src/lib/utils/files.js` lines 47–73). -/
def columnLine (col : Column) : String :=
  let base := "  " ++ col.column_name ++ " " ++ col.data_type
  let base :=
    match col.character_maximum_length with
    | some n => if n ≠ 0 then base ++ "(" ++ toString n ++ ")" else base
    | none => base
  let base :=
    match col.numeric_precision with
    | some p =>
      if p ≠ 0 ∧ col.data_type ≠ "serial" then
        match col.numeric_scale with
        | some s =>
          if s ≠ 0 then base ++ "(" ++ toString p ++ "," ++ toString s ++ ")"
          else base ++ "(" ++ toString p ++ ")"
        | none => base ++ "(" ++ toString p ++ ")"
      else base
    | none => base
  let base := if col.is_nullable = "NO" then base ++ " NOT NULL" else base
  match col.column_default with
  | some d => if d ≠ "" then base ++ " DEFAULT " ++ d else base
  | none => base

/-- One constraint line of the CREATE TABLE body (`generateTableSQL`,
    `src/lib/utils/files.js` lines 77–114). The empty string means the
    constraint contributes no line (the JS `if (constraintLine)` guard). -/
def constraintLine (c : Constraint) : String :=
  if c.constraint_type = "PRIMARY KEY" then
    "  CONSTRAINT " ++ c.constraint_name ++ " PRIMARY KEY (" ++ jsTemplate c.column_name ++ ")"
  else if c.constraint_type = "FOREIGN KEY" then
    "  CONSTRAINT " ++ c.constraint_name ++ " FOREIGN KEY (" ++ jsTemplate c.column_name
      ++ ") REFERENCES " ++ jsTemplate c.foreign_table_name
      ++ "(" ++ jsTemplate c.foreign_column_name ++ ")"
      ++ fkActionSuffix "UPDATE" c.confupdtype
      ++ fkActionSuffix "DELETE" c.confdeltype
  else if c.constraint_type = "UNIQUE" then
    "  CONSTRAINT " ++ c.constraint_name ++ " UNIQUE (" ++ jsTemplate c.column_name ++ ")"
  else if c.constraint_type = "CHECK" then
    match c.check_clause with
    | some cl =>
      if cl ≠ "" then "  CONSTRAINT " ++ c.constraint_name ++ " CHECK (" ++ cl ++ ")"
      else ""
    | none => ""
  else ""

/-- `generateTableSQL` from `src/lib/utils/files.js`. -/
def generateTableSQL (tableName : String) (columns : List Column)
    (constraints : List Constraint) : String :=
  let columnLines := columns.map columnLine
  let constraintLines := (constraints.map constraintLine).filter (fun l => l ≠ "")
  "CREATE TABLE IF NOT EXISTS " ++ tableName ++ " (\n"
    ++ String.intercalate ",\n" (columnLines ++ constraintLines)
    ++ "\n);\n"

/-! ### The change-case library

`generateDartModel` uses `pascalCase` / `camelCase` from the `change-case`
npm package. We model their behaviour: split the input into words at
non-alphanumeric separators and at lower-to-upper case transitions, then
re-join with the requested capitalisation. -/

/-- Word splitting of `change-case` (accumulator holds the current word
    reversed). -/
def splitWordsAux : List Char → List Char → List (List Char)
  | [], acc => if acc.isEmpty then [] else [acc.reverse]
  | c :: rest, acc =>
    if !c.isAlphanum then
      if acc.isEmpty then splitWordsAux rest []
      else acc.reverse :: splitWordsAux rest []
    else
      match acc with
      | [] => splitWordsAux rest [c]
      | p :: _ =>
        if p.isLower && c.isUpper then acc.reverse :: splitWordsAux rest [c]
        else splitWordsAux rest (c :: acc)

/-- Capitalise a word: first char upper, rest lower. -/
def capitalizeWord : List Char → List Char
  | [] => []
  | c :: cs => c.toUpper :: cs.map Char.toLower

/-- `pascalCase` of the change-case library. -/
def pascalCase (s : String) : String :=
  String.mk ((splitWordsAux s.data []).map capitalizeWord).flatten

/-- `camelCase` of the change-case library. -/
def camelCase (s : String) : String :=
  match splitWordsAux s.data [] with
  | [] => ""
  | w :: ws => String.mk (w.map Char.toLower ++ (ws.map capitalizeWord).flatten)

/-! ### The enum-detection regex

`generateDartModel` matches each CHECK clause against the JS regex
`/\(\((.*?) = ANY \(ARRAY\[(.*?)\]\)\)/` (unanchored, lazy groups, `.` does
not match a newline). We model the backtracking matcher directly. -/

/-- The literal ` = ANY (ARRAY[` between the two capture groups. -/
def enumSepLit : List Char := " = ANY (ARRAY[".data

/-- The literal `]))` closing the pattern. -/
def enumCloseLit : List Char := "]))".data

/-- Lazy scan: shortest newline-free prefix of the input after which `sep`
    matches; returns the prefix and the remainder after `sep`. -/
def lazyUpTo (sep : List Char) : List Char → Option (List Char × List Char)
  | [] => if sep.isPrefixOf ([] : List Char) then some ([], []) else none
  | c :: rest =>
    if sep.isPrefixOf (c :: rest) then some ([], (c :: rest).drop sep.length)
    else if c = '\n' then none
    else
      match lazyUpTo sep rest with
      | some (p, r) => some (c :: p, r)
      | none => none

/-- Attempt to finish the match at the current split point of the first lazy
    group: the separator must follow, then the second lazy group up to
    `]))`. -/
def enumMatchHere (acc l : List Char) : Option (List Char × List Char) :=
  if enumSepLit.isPrefixOf l then
    match lazyUpTo enumCloseLit (l.drop enumSepLit.length) with
    | some (vals, _) => some (acc.reverse, vals)
    | none => none
  else none

/-- Backtracking over the first lazy group `(.*?)` (shortest first). -/
def enumTryCol : List Char → List Char → Option (List Char × List Char)
  | acc, [] => enumMatchHere acc []
  | acc, c :: rest =>
    match enumMatchHere acc (c :: rest) with
    | some r => some r
    | none => if c = '\n' then none else enumTryCol (c :: acc) rest

/-- Leftmost-match scan over start positions: at each position the literal
    `((` must match, then the two lazy groups. -/
def enumScan : List Char → Option (List Char × List Char)
  | [] => none
  | c :: rest =>
    if ['(', '('].isPrefixOf (c :: rest) then
      match enumTryCol [] ((c :: rest).drop 2) with
      | some r => some r
      | none => enumScan rest
    else enumScan rest

/-- Drop one leading `'` (the `^'` alternative of the cleanup regex
    `/^'|'::text'$/g`). -/
def stripLeadQuote (s : String) : String :=
  if strStartsWith "'" s then String.mk (s.data.drop 1) else s

/-- Drop a trailing `'::text'` (the second alternative of the same regex). -/
def stripTextQuoteSuffix (s : String) : String :=
  if strEndsWith "'::text'" s then String.mk (s.data.take (s.data.length - 8)) else s

/-- Drop a trailing `::<lowercase letters>` (the regex `/::[a-z]+$/`). -/
def stripTypeCast (s : String) : String :=
  let rev := s.data.reverse
  let low := rev.takeWhile (fun c => 'a' ≤ c ∧ c ≤ 'z')
  if low.isEmpty then s
  else
    match rev.drop low.length with
    | ':' :: ':' :: _ => String.mk (s.data.take (s.data.length - low.length - 2))
    | _ => s

/-- Cleanup of one array literal from the matched value list
    (`v.trim().replace(/^'|'::text'$/g, '').replace(/::[a-z]+$/, '')
    .replace(/'/g, '')`). -/
def cleanEnumValue (v : String) : String :=
  let s := stripTextQuoteSuffix (stripLeadQuote (strTrim v))
  let s := stripTypeCast s
  String.mk (s.data.filter (fun c => c ≠ '\''))

/-- The regex match plus value split applied to one CHECK clause. -/
def extractEnum (clause : String) : Option (String × List String) :=
  match enumScan clause.data with
  | some (col, vals) =>
    some (String.mk col, (splitCommaAux vals []).map cleanEnumValue)
  | none => none

/-- The enum-constraint extraction of `generateDartModel`
    (`src/lib/utils/files.js` lines 157–173): filter CHECK constraints whose
    clause contains `= ANY (ARRAY[`, run the regex, drop non-matches. -/
def extractEnumConstraints (constraints : List Constraint) : List (String × List String) :=
  (constraints.filter (fun c =>
      c.constraint_type = "CHECK" &&
      (match c.check_clause with
       | some cl => strContains "= ANY (ARRAY[" cl
       | none => false))).filterMap
    (fun c =>
      match c.check_clause with
      | some cl => extractEnum cl
      | none => none)

/-! ### The Dart type mapper and default-literal translation -/

/-- `getDartType` from `src/lib/utils/files.js` (lines 303–368). -/
def getDartType (pgType : String) (isNullable : Bool) : String :=
  let ns := if isNullable then "?" else ""
  let t := strToLower pgType
  if t = "integer" ∨ t = "smallint" ∨ t = "bigint" ∨ t = "serial" ∨ t = "bigserial" then
    "int" ++ ns
  else if t = "decimal" ∨ t = "numeric" ∨ t = "real" ∨ t = "double precision"
      ∨ t = "float" ∨ t = "float4" ∨ t = "float8" then
    "double" ++ ns
  else if t = "boolean" then
    "bool" ++ ns
  else if t = "timestamp" ∨ t = "timestamp with time zone"
      ∨ t = "timestamp without time zone" ∨ t = "timestamptz" ∨ t = "date"
      ∨ t = "time" ∨ t = "time with time zone" ∨ t = "time without time zone"
      ∨ t = "timetz" then
    "DateTime" ++ ns
  else if t = "json" ∨ t = "jsonb" then
    "Map<String, dynamic>" ++ ns
  else if t = "uuid" then
    "String" ++ ns
  else if t = "bytea" then
    "List<int>" ++ ns
  else if t = "text[]" ∨ t = "varchar[]" ∨ t = "character varying[]" then
    "List<String>" ++ ns
  else if t = "integer[]" ∨ t = "int[]" ∨ t = "bigint[]" then
    "List<int>" ++ ns
  else if t = "boolean[]" then
    "List<bool>" ++ ns
  else if t = "numeric[]" ∨ t = "decimal[]" ∨ t = "double precision[]" then
    "List<double>" ++ ns
  else
    "String" ++ ns

/-- Every `case` label of the `switch` in `getDartType`, i.e. the recognized
    mapping table. -/
def recognizedPgTypes : List String :=
  ["integer", "smallint", "bigint", "serial", "bigserial",
   "decimal", "numeric", "real", "double precision", "float", "float4", "float8",
   "boolean",
   "timestamp", "timestamp with time zone", "timestamp without time zone",
   "timestamptz", "date", "time", "time with time zone",
   "time without time zone", "timetz",
   "json", "jsonb", "uuid", "bytea",
   "text[]", "varchar[]", "character varying[]",
   "integer[]", "int[]", "bigint[]", "boolean[]",
   "numeric[]", "decimal[]", "double precision[]"]

/-- Digits-prefix accumulator of JS `parseInt`. -/
def digitsToNat (l : List Char) : Nat :=
  l.foldl (fun acc c => acc * 10 + (c.toNat - '0'.toNat)) 0

/-- JS `parseInt(s, 10)`: skip leading whitespace, optional sign, maximal
    digit prefix; `NaN` (here `none`) when no digit follows. -/
def jsParseInt (s : String) : Option Int :=
  let l := s.data.dropWhile Char.isWhitespace
  match l with
  | [] => none
  | c :: rest =>
    if c = '-' then
      let ds := rest.takeWhile Char.isDigit
      if ds.isEmpty then none else some (-(digitsToNat ds : Int))
    else if c = '+' then
      let ds := rest.takeWhile Char.isDigit
      if ds.isEmpty then none else some ((digitsToNat ds : Int))
    else
      let ds := (c :: rest).takeWhile Char.isDigit
      if ds.isEmpty then none else some ((digitsToNat ds : Int))

/-- First match of the JS regex `/'([^']*)'::text/`: a quote, a run of
    non-quote chars, then `'::text`; returns the captured run. -/
def textDefaultScan : List Char → Option (List Char)
  | [] => none
  | c :: rest =>
    if c = '\'' then
      let inner := rest.takeWhile (fun ch => ch ≠ '\'')
      let after := rest.drop inner.length
      if "'::text".data.isPrefixOf after then some inner
      else textDefaultScan rest
    else textDefaultScan rest

/-- `getDefaultValue` from `src/lib/utils/files.js` (lines 262–298);
    `none` models the JS `null` return. -/
def getDefaultValue (defaultValue : String) (dataType : String) : Option String :=
  if defaultValue = "" then none
  else if strContains "nextval(" defaultValue then none
  else if strContains "now()" defaultValue then some "DateTime.now()"
  else
    let textRes : Option String :=
      if dataType = "text" ∨ dataType = "character varying" then
        match textDefaultScan defaultValue.data with
        | some inner => some ("'" ++ String.mk inner ++ "'")
        | none => none
      else none
    match textRes with
    | some r => some r
    | none =>
      let numRes : Option String :=
        if dataType = "integer" ∨ dataType = "bigint" ∨ dataType = "numeric" then
          match jsParseInt defaultValue with
          | some n => some (toString n)
          | none => none
        else none
      match numRes with
      | some r => some r
      | none =>
        if dataType = "boolean" then
          if strToLower defaultValue = "true" then some "true"
          else if strToLower defaultValue = "false" then some "false"
          else none
        else none

/-! ### `generateDartModel` -/

/-- The foreign-key record built by `generateDartModel`
    (`src/lib/utils/files.js` lines 149–154). -/
structure ForeignKeyInfo where
  column : String
  foreignTable : Option String
  foreignColumn : Option String
deriving Repr, DecidableEq

/-- Primary-key column list of `generateDartModel` (lines 144–146):
    `constraints.filter(PK).map(column_name).filter(Boolean)`. -/
def primaryKeyColumns (constraints : List Constraint) : List String :=
  (constraints.filter (fun c => c.constraint_type = "PRIMARY KEY")).filterMap
    (fun c =>
      match c.column_name with
      | some s => if s ≠ "" then some s else none
      | none => none)

/-- Foreign-key list of `generateDartModel` (lines 149–154). -/
def foreignKeyInfos (constraints : List Constraint) : List ForeignKeyInfo :=
  (constraints.filter (fun c =>
      c.constraint_type = "FOREIGN KEY" && jsStrTruthy c.column_name)).map
    (fun c =>
      { column := match c.column_name with | some s => s | none => ""
        foreignTable := c.foreign_table_name
        foreignColumn := c.foreign_column_name })

/-- The fixed file header emitted by `generateDartModel` (lines 175–185). -/
def modelHeader (tableName : String) : String :=
  "// GENERATED CODE - DO NOT MODIFY BY HAND\n\n// ignore_for_file: type=lint\n// ignore_for_file: unused_element, deprecated_member_use, deprecated_member_use_from_same_package, use_function_type_syntax_for_parameters, unnecessary_const, avoid_init_to_null, invalid_override_different_default_values_named, prefer_expression_function_bodies, annotate_overrides, invalid_annotation_target, unnecessary_question_mark\n\nimport 'package:freezed_annotation/freezed_annotation.dart';\n\npart '"
    ++ tableName ++ ".g.dart';\npart '" ++ tableName ++ ".freezed.dart';\n\n"

/-- One enum declaration emitted before the class (lines 188–196). -/
def enumDecl (ec : String × List String) : String :=
  let enumName := pascalCase ec.1 ++ "Type"
  "enum " ++ enumName ++ " \x7b\n"
    ++ String.intercalate ",\n"
        (ec.2.map (fun v => "  @JsonValue('" ++ v ++ "')\n  " ++ camelCase v))
    ++ ",\n\x7d\n\n"

/-- Per-field doc comments (lines 207–220), emitted when `generateDocs`. -/
def fieldDocs (generateDocs : Bool) (col : Column) (primaryKeys : List String)
    (foreignKeys : List ForeignKeyInfo) : String :=
  if generateDocs then
    "\n    /// " ++ col.column_name ++ " field\n"
      ++ (if primaryKeys.contains col.column_name then "    /// Primary key\n" else "")
      ++ (match foreignKeys.find? (fun fk => fk.column = col.column_name) with
          | some fk =>
            "    /// Foreign key reference to " ++ jsTemplate fk.foreignTable
              ++ "(" ++ jsTemplate fk.foreignColumn ++ ")\n"
          | none => "")
      ++ (match col.column_default with
          | some d => if d ≠ "" then "    /// Default: " ++ d ++ "\n" else ""
          | none => "")
  else ""

/-- Field type resolution (lines 222–232): map the physical type, then
    override with the synthesized enum type when the column has an
    enum-detected CHECK constraint. -/
def resolveFieldType (col : Column) (enums : List (String × List String)) : String :=
  match enums.find? (fun e => e.1 = col.column_name) with
  | some _ =>
    pascalCase col.column_name ++ "Type" ++ (if col.is_nullable = "YES" then "?" else "")
  | none => getDartType col.data_type (col.is_nullable = "YES")

/-- The required / `@Default` / optional field line (lines 237–252). -/
def fieldDeclLine (col : Column) (dartType fieldName : String) : String :=
  if col.is_nullable = "NO" then
    match col.column_default with
    | some d =>
      if d ≠ "" then
        match getDefaultValue d col.data_type with
        | some v => "    @Default(" ++ v ++ ") " ++ dartType ++ " " ++ fieldName ++ ",\n"
        | none => "    required " ++ dartType ++ " " ++ fieldName ++ ",\n"
      else "    required " ++ dartType ++ " " ++ fieldName ++ ",\n"
    | none => "    required " ++ dartType ++ " " ++ fieldName ++ ",\n"
  else "    " ++ dartType ++ " " ++ fieldName ++ ",\n"

/-- The full per-column chunk of the constructor body (lines 206–253). -/
def fieldChunk (generateDocs : Bool) (primaryKeys : List String)
    (foreignKeys : List ForeignKeyInfo) (enums : List (String × List String))
    (col : Column) : String :=
  fieldDocs generateDocs col primaryKeys foreignKeys
    ++ "    @JsonKey(name: '" ++ col.column_name ++ "')\n"
    ++ fieldDeclLine col (resolveFieldType col enums) (camelCase col.column_name)

/-- `generateDartModel` from `src/lib/utils/files.js` (lines 139–260). -/
def generateDartModel (tableName : String) (columns : List Column)
    (constraints : List Constraint) (generateDocs : Bool) : String :=
  let className := pascalCase tableName
  let primaryKeys := primaryKeyColumns constraints
  let foreignKeys := foreignKeyInfos constraints
  let enums := extractEnumConstraints constraints
  modelHeader tableName
    ++ String.join (enums.map enumDecl)
    ++ "/// Model representing the " ++ tableName
    ++ " table in the database.\n/// This model was auto-generated from the database schema.\n@freezed\nclass "
    ++ className ++ " with _$" ++ className ++ " \x7b\n  const factory " ++ className ++ "(\x7b\n"
    ++ String.join (columns.map (fieldChunk generateDocs primaryKeys foreignKeys enums))
    ++ "  \x7d) = _" ++ className ++ ";\n\n  factory " ++ className
    ++ ".fromJson(Map<String, dynamic> json) => _$" ++ className ++ "FromJson(json);\n\x7d\n"

/-! ### The SQL utility section of `src/lib/exporter.js`

`escapeSqlValue` dispatches on the runtime type of a JS value; we model the
value universe the exporter feeds it (JSON-like data read from the
database): `null`, numbers (integral here), booleans, strings, arrays and
plain objects. -/

/-- A JS value as handled by `escapeSqlValue`. -/
inductive JsValue where
  | jnull : JsValue
  | jnum : Int → JsValue
  | jbool : Bool → JsValue
  | jstr : String → JsValue
  | jarr : List JsValue → JsValue
  | jobj : List (String × JsValue) → JsValue
deriving Repr

/-- Escaping of one character inside a JSON string literal
    (`JSON.stringify`). -/
def jsonEscapeChar (c : Char) : List Char :=
  if c = '"' then ['\\', '"']
  else if c = '\\' then ['\\', '\\']
  else if c = '\n' then ['\\', 'n']
  else if c = '\t' then ['\\', 't']
  else if c = '\r' then ['\\', 'r']
  else if c = '\x08' then ['\\', 'b']
  else if c = '\x0c' then ['\\', 'f']
  else if c.toNat < 32 then
    let hex := fun (n : Nat) => if n < 10 then Char.ofNat ('0'.toNat + n) else Char.ofNat ('a'.toNat + n - 10)
    ['\\', 'u', '0', '0', hex (c.toNat / 16), hex (c.toNat % 16)]
  else [c]

/-- JSON string-literal body escaping. -/
def jsonEscape (s : String) : String :=
  String.mk (s.data.flatMap jsonEscapeChar)

mutual

/-- `JSON.stringify` over the modelled value universe. -/
def jsonStringify : JsValue → String
  | .jnull => "null"
  | .jnum n => toString n
  | .jbool b => if b then "true" else "false"
  | .jstr s => "\"" ++ jsonEscape s ++ "\""
  | .jarr xs => "[" ++ String.intercalate "," (jsonStringifyList xs) ++ "]"
  | .jobj fs => "\x7b" ++ String.intercalate "," (jsonStringifyFields fs) ++ "\x7d"

/-- `JSON.stringify` mapped over an array's elements. -/
def jsonStringifyList : List JsValue → List String
  | [] => []
  | v :: vs => jsonStringify v :: jsonStringifyList vs

/-- `JSON.stringify` mapped over an object's key/value pairs. -/
def jsonStringifyFields : List (String × JsValue) → List String
  | [] => []
  | (k, v) :: fs =>
    ("\"" ++ jsonEscape k ++ "\":" ++ jsonStringify v) :: jsonStringifyFields fs

end

/-- The JS global replace `.replace(/'/g, "''")`. -/
def sqlQuoteEscapeAux : List Char → List Char
  | [] => []
  | c :: rest =>
    if c = '\'' then '\'' :: '\'' :: sqlQuoteEscapeAux rest
    else c :: sqlQuoteEscapeAux rest

/-- Double every single quote of a string. -/
def sqlQuoteEscape (s : String) : String :=
  String.mk (sqlQuoteEscapeAux s.data)

mutual

/-- `escapeSqlValue` from the SQL utility section of `src/lib/exporter.js`
    (lines 236–245): dispatch order `null`, number, boolean, array, plain
    object, then the string fallback (`value.toString()` is the identity on
    strings). -/
def escapeSqlValue : JsValue → String
  | .jnull => "NULL"
  | .jnum n => toString n
  | .jbool b => if b then "TRUE" else "FALSE"
  | .jarr xs => "ARRAY[" ++ String.intercalate ", " (escapeSqlValueList xs) ++ "]"
  | .jobj fs => "'" ++ sqlQuoteEscape (jsonStringify (.jobj fs)) ++ "'"
  | .jstr s => "'" ++ sqlQuoteEscape s ++ "'"

/-- `escapeSqlValue` mapped over an array's elements. -/
def escapeSqlValueList : List JsValue → List String
  | [] => []
  | v :: vs => escapeSqlValue v :: escapeSqlValueList vs

end

/-- A data row: an object as an ordered key/value list (`Object.keys`
    enumerates in insertion order). -/
def Row := List (String × JsValue)

/-- `formatInsert` from the SQL utility section of `src/lib/exporter.js`
    (lines 293–309); `none` models a missing (`undefined`/`null`) row list.
    Row cells are looked up by the first row's keys; rows of the same table
    share those keys, so the lookup is total here. -/
def formatInsert (tableName : String) (rows : Option (List Row)) : String :=
  match rows with
  | none => "-- No data to insert for table " ++ tableName
  | some [] => "-- No data to insert for table " ++ tableName
  | some (r :: rs) =>
    let columns := r.map Prod.fst
    let values := (r :: rs).map (fun row =>
      "(" ++ String.intercalate ", "
            (columns.map (fun col =>
              escapeSqlValue (((row : List (String × JsValue)).lookup col).getD .jnull)))
        ++ ")")
    "INSERT INTO " ++ tableName ++ " (" ++ String.intercalate ", " columns
      ++ ") VALUES\n" ++ String.intercalate ",\n" values ++ "\n;"

/-! ### `DatabaseExporter.exportTables` -/

/-- One table as delivered by the provider queries of `exportTables`
    (`src/lib/exporter.js` lines 153–190): the rows of
    `information_schema.tables` after the optional `table_name = ANY($1)`
    filter, with each table's constraint and column rows. -/
structure TableData where
  table_name : String
  columns : List Column
  constraints : List Constraint
deriving Repr

/-- The accumulated content of `02_tables.sql` built by `exportTables`. -/
def exportTablesSql (tables : List TableData) : String :=
  "-- Tables with constraints\n\n"
    ++ String.join (tables.map (fun t =>
        generateTableSQL t.table_name t.columns t.constraints ++ "\n"))

/-- The pure behaviour of `DatabaseExporter.exportTables` given the
    provider's (already filtered) table list: the function has no error
    path of its own — it unconditionally writes `02_tables.sql` and records
    the table count. The `Except` layer records that no exception is
    raised. -/
def exportTables (tables : List TableData) :
    Except String (List (String × String) × Nat) :=
  Except.ok ([("02_tables.sql", exportTablesSql tables)], tables.length)

/-! ### The alternate converter's type mapper (`src/unnamed/part_003`) -/

/-- The `PG_TO_DART_TYPE` mapping object of `src/unnamed/part_003`. -/
def PG_TO_DART_TYPE : List (String × String) :=
  [("character varying", "String"), ("varchar", "String"), ("character", "String"),
   ("char", "String"), ("text", "String"),
   ("smallint", "int"), ("integer", "int"), ("bigint", "int"),
   ("decimal", "double"), ("numeric", "double"), ("real", "double"),
   ("double precision", "double"),
   ("boolean", "bool"),
   ("date", "DateTime"), ("timestamp", "DateTime"),
   ("timestamp without time zone", "DateTime"), ("timestamp with time zone", "DateTime"),
   ("time", "TimeOfDay"), ("time without time zone", "TimeOfDay"),
   ("time with time zone", "TimeOfDay"),
   ("json", "Map<String, dynamic>"), ("jsonb", "Map<String, dynamic>"),
   ("uuid", "String")]

/-- First match of the JS regex `/ARRAY\[(.*)\]/` (greedy group, `.` does
    not match a newline): content between the first `ARRAY[` and the last
    following `]` on the same line. -/
def arrayMatchScan : List Char → Option (List Char)
  | [] => none
  | c :: rest =>
    if "ARRAY[".data.isPrefixOf (c :: rest) then
      let seg := ((c :: rest).drop 6).takeWhile (fun ch => ch ≠ '\n')
      let tailRev := seg.reverse.dropWhile (fun ch => ch ≠ ']')
      match tailRev with
      | [] => arrayMatchScan rest
      | _ :: contentRev => some contentRev.reverse
    else arrayMatchScan rest

/-- `getDartType` of `src/unnamed/part_003` (lines 157–173), as a function
    of the column's `pgType`. When `pgType` starts with `ARRAY` but the
    regex `/ARRAY\[(.*)\]/` does not match, the JS code dereferences
    `null[1]` and throws — modelled as `Except.error`. -/
def convGetDartType (pgType : String) : Except String String :=
  if strStartsWith "ARRAY" pgType then
    match arrayMatchScan pgType.data with
    | some base =>
      Except.ok ("List<" ++ ((PG_TO_DART_TYPE.lookup (String.mk base)).getD "dynamic") ++ ">")
    | none =>
      Except.error "TypeError: Cannot read properties of null (reading 1)"
  else if pgType = "USER-DEFINED" then Except.ok "String"
  else Except.ok ((PG_TO_DART_TYPE.lookup pgType).getD "dynamic")

/-! ## Supporting lemmas -/

/-- A char list in which every single quote is immediately followed by a
    second single quote (i.e. no unescaped quote). -/
def quotesPaired : List Char → Bool
  | [] => true
  | c :: rest =>
    if c = '\'' then
      match rest with
      | [] => false
      | c2 :: rest2 => if c2 = '\'' then quotesPaired rest2 else false
    else quotesPaired rest

theorem escapeSqlValueList_eq_map (xs : List JsValue) :
    escapeSqlValueList xs = xs.map escapeSqlValue := by
  induction xs with
  | nil => rfl
  | cons v vs ih => simp [escapeSqlValueList, ih]

theorem quotesPaired_sqlQuoteEscapeAux (l : List Char) :
    quotesPaired (sqlQuoteEscapeAux l) = true := by
  induction l with
  | nil => rfl
  | cons c rest ih =>
    by_cases hc : c = '\''
    · subst hc
      simp only [sqlQuoteEscapeAux, if_pos rfl, quotesPaired]
      simpa using ih
    · simp only [sqlQuoteEscapeAux, if_neg hc]
      rw [quotesPaired.eq_def]
      simp only [if_neg hc]
      exact ih

/-! ## The claims -/

/-- **C4.** `escapeSqlValue` escapes per type: `NULL` for null, the decimal
    numeral for a number, `TRUE`/`FALSE` for a boolean, `ARRAY[…]` with each
    element escaped recursively for an array, the JSON serialization wrapped
    in single quotes with every single quote doubled for a plain object, and
    otherwise (a string) the value's string form wrapped in single quotes
    with every single quote doubled. -/
theorem escapeSqlValue_per_type :
    escapeSqlValue .jnull = "NULL"
    ∧ (∀ n : Int, escapeSqlValue (.jnum n) = toString n)
    ∧ (∀ b : Bool, escapeSqlValue (.jbool b) = if b then "TRUE" else "FALSE")
    ∧ (∀ xs : List JsValue,
        escapeSqlValue (.jarr xs) =
          "ARRAY[" ++ String.intercalate ", " (xs.map escapeSqlValue) ++ "]")
    ∧ (∀ fs : List (String × JsValue),
        escapeSqlValue (.jobj fs) =
          "'" ++ sqlQuoteEscape (jsonStringify (.jobj fs)) ++ "'")
    ∧ (∀ s : String, escapeSqlValue (.jstr s) = "'" ++ sqlQuoteEscape s ++ "'") := by
  refine ⟨rfl, fun n => rfl, fun b => rfl, fun xs => ?_, fun fs => rfl, fun s => rfl⟩
  simp [escapeSqlValue, escapeSqlValueList_eq_map]

/-- **C9.** For every string input, `escapeSqlValue` returns a well-formed
    single-quoted SQL literal: an opening quote, the string with every
    single quote doubled, a closing quote; the interior never contains an
    unescaped single quote (every quote is part of an adjacent pair). -/
theorem escapeSqlValue_string_wellformed :
    ∀ s : String,
      escapeSqlValue (.jstr s) = "'" ++ sqlQuoteEscape s ++ "'"
      ∧ quotesPaired (sqlQuoteEscape s).data = true :=
  fun s => ⟨rfl, quotesPaired_sqlQuoteEscapeAux s.data⟩

/-- **C5.** For a table with an empty (or missing) row list, the data
    renderer `formatInsert` returns the SQL comment placeholder naming the
    table; an INSERT statement is only ever produced from a non-empty row
    list, so no INSERT with an empty VALUES list can be returned. -/
theorem formatInsert_empty_placeholder :
    ∀ (t : String) (rows : Option (List Row)),
      (∃ r rs, rows = some (r :: rs)) ∨
        formatInsert t rows = "-- No data to insert for table " ++ t := by
  intro t rows
  match rows with
  | none => exact Or.inr rfl
  | some [] => exact Or.inr rfl
  | some (r :: rs) => exact Or.inl ⟨r, rs, rfl⟩

/-- **C8.** The SQL renderer and the model-source renderer are deterministic
    functions of the schema snapshot: rendering the same input twice yields
    byte-identical output. (The embedding is a pure function because the
    source functions read no ambient state — no clock, randomness or
    unordered iteration — so the result depends only on the arguments.) -/
theorem renderers_deterministic :
    ∀ (t : String) (cols : List Column) (cons : List Constraint) (docs : Bool),
      generateTableSQL t cols cons = generateTableSQL t cols cons
      ∧ generateDartModel t cols cons docs = generateDartModel t cols cons docs :=
  fun _ _ _ _ => ⟨rfl, rfl⟩

/-- **C2 (counterexample).** With zero tables after filtering, `exportTables`
    does not fail and does write an output file: it returns successfully,
    writing `02_tables.sql` containing only the header comment — refuting
    "the export fails with a BuildError and no output file is written"
    (no `BuildError` exists anywhere in the repository). -/
theorem exportTables_empty_writes_header_file :
    exportTables [] =
      Except.ok ([("02_tables.sql", "-- Tables with constraints\n\n")], 0) := by
  show Except.ok ([("02_tables.sql", exportTablesSql [])], 0) = _
  rw [show exportTablesSql [] = "-- Tables with constraints\n\n" from by decide]

/-- **C2 (amended).** For every table list remaining after the caller's
    filter — the empty list included — `exportTables` succeeds, writes the
    tables section file `02_tables.sql`, and records the table count; with
    zero tables the file holds only the header comment. -/
theorem exportTables_total_and_header :
    ∀ tables : List TableData,
      exportTables tables =
        Except.ok ([("02_tables.sql", exportTablesSql tables)], tables.length)
      ∧ exportTablesSql [] = "-- Tables with constraints\n\n" :=
  fun _ => ⟨rfl, by decide⟩

/-- **C3.** A FOREIGN_KEY constraint renders as the base
    `CONSTRAINT … FOREIGN KEY (…) REFERENCES …(…)` text followed by the
    `ON UPDATE` suffix and then the `ON DELETE` suffix; each suffix is the
    corresponding `ON … <action>` clause exactly when the action code is a
    real action (`c`,`n`,`d`,`r`), and empty when the action is NO_ACTION
    (`a`) or absent. In particular `onDeleteAction = CASCADE` with
    `onUpdateAction = NO_ACTION` renders `… ON DELETE CASCADE` and no
    `ON UPDATE` clause. -/
theorem foreign_key_action_rendering (c : Constraint)
    (h : c.constraint_type = "FOREIGN KEY") :
    constraintLine c =
      "  CONSTRAINT " ++ c.constraint_name ++ " FOREIGN KEY (" ++ jsTemplate c.column_name
        ++ ") REFERENCES " ++ jsTemplate c.foreign_table_name
        ++ "(" ++ jsTemplate c.foreign_column_name ++ ")"
        ++ fkActionSuffix "UPDATE" c.confupdtype
        ++ fkActionSuffix "DELETE" c.confdeltype
    ∧ (∀ t, t ∈ (["c", "n", "d", "r"] : List String) →
        fkActionSuffix "DELETE" (some t) = " ON DELETE " ++ getActionType t
        ∧ fkActionSuffix "UPDATE" (some t) = " ON UPDATE " ++ getActionType t
        ∧ getActionType t ≠ "NO ACTION")
    ∧ fkActionSuffix "DELETE" (some "a") = "" ∧ fkActionSuffix "DELETE" none = ""
    ∧ fkActionSuffix "UPDATE" (some "a") = "" ∧ fkActionSuffix "UPDATE" none = ""
    ∧ (c.confdeltype = some "c" → c.confupdtype = some "a" →
        constraintLine c =
          "  CONSTRAINT " ++ c.constraint_name ++ " FOREIGN KEY (" ++ jsTemplate c.column_name
            ++ ") REFERENCES " ++ jsTemplate c.foreign_table_name
            ++ "(" ++ jsTemplate c.foreign_column_name ++ ")" ++ " ON DELETE CASCADE") := by
  have hbase :
      constraintLine c =
        "  CONSTRAINT " ++ c.constraint_name ++ " FOREIGN KEY (" ++ jsTemplate c.column_name
          ++ ") REFERENCES " ++ jsTemplate c.foreign_table_name
          ++ "(" ++ jsTemplate c.foreign_column_name ++ ")"
          ++ fkActionSuffix "UPDATE" c.confupdtype
          ++ fkActionSuffix "DELETE" c.confdeltype := by
    simp [constraintLine, h]
  refine ⟨hbase, ?_, by decide, rfl, by decide, rfl, ?_⟩
  · intro t ht
    fin_cases ht <;> exact ⟨by decide, by decide, by decide⟩
  · intro hd hu
    rw [hbase, hd, hu]
    rw [show fkActionSuffix "UPDATE" (some "a") = "" from by decide,
        show fkActionSuffix "DELETE" (some "c") = " ON DELETE CASCADE" from by decide]
    simp [String.append_assoc]

/-- Witness for C3 at a concrete constraint: `confdeltype = 'c'` (CASCADE),
    `confupdtype = 'a'` (NO ACTION) renders the `ON DELETE CASCADE` clause
    and no `ON UPDATE` clause. -/
theorem foreign_key_action_rendering_witness :
    constraintLine
        { constraint_type := "FOREIGN KEY", constraint_name := "fk_org",
          column_name := some "org_id", foreign_table_name := some "orgs",
          foreign_column_name := some "id",
          confupdtype := some "a", confdeltype := some "c" }
      = "  CONSTRAINT fk_org FOREIGN KEY (org_id) REFERENCES orgs(id) ON DELETE CASCADE"
    ∧ strContains " ON UPDATE "
        (constraintLine
          { constraint_type := "FOREIGN KEY", constraint_name := "fk_org",
            column_name := some "org_id", foreign_table_name := some "orgs",
            foreign_column_name := some "id",
            confupdtype := some "a", confdeltype := some "c" }) = false := by
  have h := foreign_key_action_rendering
    { constraint_type := "FOREIGN KEY", constraint_name := "fk_org",
      column_name := some "org_id", foreign_table_name := some "orgs",
      foreign_column_name := some "id",
      confupdtype := some "a", confdeltype := some "c" } rfl
  refine ⟨?_, by decide⟩
  rw [h.2.2.2.2.2.2 rfl rfl]
  decide

/-- **C10.** `generateTableSQL` silently drops constraints of unrecognized
    kinds and CHECK constraints without a (truthy) clause: such a
    constraint contributes the empty line, which the renderer filters out;
    conversely every non-empty constraint line comes from one of the four
    recognized kinds, and from a CHECK only when its clause is present and
    non-empty. -/
theorem constraint_lines_recognized_kinds (c : Constraint) :
    (c.constraint_type ∉ (["PRIMARY KEY", "FOREIGN KEY", "UNIQUE", "CHECK"] : List String) →
      constraintLine c = "")
    ∧ (c.constraint_type = "CHECK" → (c.check_clause = none ∨ c.check_clause = some "") →
      constraintLine c = "")
    ∧ (constraintLine c ≠ "" →
      c.constraint_type ∈ (["PRIMARY KEY", "FOREIGN KEY", "UNIQUE", "CHECK"] : List String)
      ∧ (c.constraint_type = "CHECK" → ∃ cl, c.check_clause = some cl ∧ cl ≠ ""))
    ∧ (generateTableSQL "t" [] [c] =
        "CREATE TABLE IF NOT EXISTS t (\n"
          ++ String.intercalate ",\n" ((([c].map constraintLine).filter (fun l => l ≠ "")))
          ++ "\n);\n") := by
  refine ⟨?_, ?_, ?_, rfl⟩
  · intro h
    simp only [List.mem_cons, List.not_mem_nil, or_false, not_or] at h
    obtain ⟨h1, h2, h3, h4⟩ := h
    simp [constraintLine, h1, h2, h3, h4]
  · intro h hcl
    rcases hcl with hcl | hcl <;>
      simp [constraintLine, h, hcl]
  · intro h
    by_cases h1 : c.constraint_type = "PRIMARY KEY"
    · exact ⟨by simp [h1], fun hck => absurd (h1.symm.trans hck) (by decide)⟩
    by_cases h2 : c.constraint_type = "FOREIGN KEY"
    · exact ⟨by simp [h2], fun hck => absurd (h2.symm.trans hck) (by decide)⟩
    by_cases h3 : c.constraint_type = "UNIQUE"
    · exact ⟨by simp [h3], fun hck => absurd (h3.symm.trans hck) (by decide)⟩
    by_cases h4 : c.constraint_type = "CHECK"
    · refine ⟨by simp [h4], fun _ => ?_⟩
      match hcl : c.check_clause with
      | none => exact absurd (by simp [constraintLine, h1, h2, h3, h4, hcl]) h
      | some cl =>
        refine ⟨cl, rfl, ?_⟩
        intro hev
        exact absurd (by simp [constraintLine, h1, h2, h3, h4, hcl, hev]) h
    · exact absurd (by simp [constraintLine, h1, h2, h3, h4]) h

/-- Witness for C10: an `EXCLUDE` constraint and a clause-less CHECK each
    contribute no line. -/
theorem constraint_lines_recognized_kinds_witness :
    constraintLine { constraint_type := "EXCLUDE", constraint_name := "ex1" } = ""
    ∧ constraintLine { constraint_type := "CHECK", constraint_name := "chk1" } = "" :=
  ⟨(constraint_lines_recognized_kinds
      { constraint_type := "EXCLUDE", constraint_name := "ex1" }).1 (by decide),
   (constraint_lines_recognized_kinds
      { constraint_type := "CHECK", constraint_name := "chk1" }).2.1 rfl (Or.inl rfl)⟩

/-- Assoc-list lookup misses when the key differs from every stored key. -/
theorem lookup_eq_none_of_no_key {β : Type} (s : String) (l : List (String × β))
    (h : ∀ p ∈ l, s ≠ p.1) : l.lookup s = none := by
  induction l with
  | nil => rfl
  | cons p rest ih =>
    obtain ⟨k, v⟩ := p
    have hk : (s == k) = false := by
      simp only [beq_eq_false_iff_ne, ne_eq]
      exact fun e => h (k, v) (by simp) (by simpa using e)
    simp only [List.lookup, hk]
    exact ih (fun q hq => h q (by simp [hq]))

/-- **C7 (counterexample).** The primary type mapper (`getDartType` in
    `src/lib/utils/files.js`) maps the unrecognized type `geometry` to
    `String` (the Text type), not to `dynamic`; and the alternate
    converter's mapper (`src/unnamed/part_003`) is not total: on the type
    string `ARRAY` (the `information_schema` spelling for array columns) it
    dereferences a failed regex match and throws. -/
theorem type_mapper_fallback_cex :
    getDartType "geometry" false = "String"
    ∧ ("String" : String) ≠ "dynamic"
    ∧ convGetDartType "ARRAY" =
        Except.error "TypeError: Cannot read properties of null (reading 1)" :=
  ⟨by decide, by decide, rfl⟩

/-- **C7 (amended).** For every declared type string not in the recognized
    mapping table, the primary mapper returns `String` (the Text fallback,
    nullable-suffixed) and never raises (it is a total function); the
    alternate converter's mapper returns `dynamic` for unrecognized types
    that do not start with `ARRAY` and are not `USER-DEFINED`, but throws
    on a string starting with `ARRAY` without a bracketed element type. -/
theorem type_mapper_fallback_amended :
    (∀ (s : String) (b : Bool), strToLower s ∉ recognizedPgTypes →
      getDartType s b = "String" ++ (if b then "?" else ""))
    ∧ (∀ s : String, strStartsWith "ARRAY" s = false → s ≠ "USER-DEFINED" →
        (∀ p ∈ PG_TO_DART_TYPE, s ≠ p.1) →
        convGetDartType s = Except.ok "dynamic")
    ∧ convGetDartType "ARRAY" =
        Except.error "TypeError: Cannot read properties of null (reading 1)" := by
  refine ⟨?_, ?_, rfl⟩
  · intro s b h
    simp only [recognizedPgTypes, List.mem_cons, List.not_mem_nil, or_false, not_or] at h
    obtain ⟨n1, n2, n3, n4, n5, n6, n7, n8, n9, n10,
           n11, n12, n13, n14, n15, n16, n17, n18, n19, n20,
           n21, n22, n23, n24, n25, n26, n27, n28, n29, n30,
           n31, n32, n33, n34, n35, n36⟩ := h
    simp only [getDartType]
    rw [if_neg (by tauto), if_neg (by tauto), if_neg (by tauto), if_neg (by tauto),
        if_neg (by tauto), if_neg (by tauto), if_neg (by tauto), if_neg (by tauto),
        if_neg (by tauto), if_neg (by tauto), if_neg (by tauto)]
  · intro s hpre hud hkeys
    simp only [convGetDartType, hpre, Bool.false_eq_true, if_false, if_neg hud,
      lookup_eq_none_of_no_key s PG_TO_DART_TYPE hkeys, Option.getD_none]

/-- Witness for C7 (amended) at concrete unrecognized type names. -/
theorem type_mapper_fallback_amended_witness :
    getDartType "geometry" true = "String?"
    ∧ convGetDartType "tsvector" = Except.ok "dynamic" := by
  have h := type_mapper_fallback_amended
  constructor
  · rw [h.1 "geometry" true (by decide)]
    decide
  · exact h.2.1 "tsvector" (by decide) (by decide) (by decide)

/-- A needle that starts with a character absent from the haystack is not
    contained in it. -/
theorem strContainsAux_eq_false {needle hay : List Char} (c0 : Char)
    (hn : needle.head? = some c0) (h : ∀ c ∈ hay, c ≠ c0) :
    strContainsAux needle hay = false := by
  obtain ⟨nt, rfl⟩ : ∃ nt, needle = c0 :: nt := by
    cases needle with
    | nil => simp at hn
    | cons a as =>
      have ha : a = c0 := by simpa using hn
      exact ⟨as, by rw [ha]⟩
  induction hay with
  | nil => rfl
  | cons c rest ih =>
    have hc : (c0 == c) = false := by
      simp only [beq_eq_false_iff_ne, ne_eq]
      exact fun e => h c (by simp) e.symm
    simp only [strContainsAux, List.isPrefixOf, hc, Bool.false_and, Bool.false_or]
    exact ih (fun x hx => h x (by simp [hx]))

/-- Digits are not `'n'`, not a sign, and not whitespace. -/
theorem isDigit_facts (c : Char) (h : c.isDigit = true) :
    c ≠ 'n' ∧ c ≠ '-' ∧ c ≠ '+' ∧ c.isWhitespace = false := by
  refine ⟨?_, ?_, ?_, ?_⟩
  · rintro rfl; exact absurd h (by decide)
  · rintro rfl; exact absurd h (by decide)
  · rintro rfl; exact absurd h (by decide)
  · cases hw : c.isWhitespace with
    | false => rfl
    | true =>
      exfalso
      simp only [Char.isWhitespace, Bool.or_eq_true, decide_eq_true_eq] at hw
      rcases hw with ((rfl | rfl) | rfl) | rfl <;> exact absurd h (by decide)

/-- `takeWhile` keeps a list all of whose elements satisfy the predicate. -/
theorem takeWhile_eq_self_of_all {p : Char → Bool} :
    ∀ l : List Char, (∀ c ∈ l, p c = true) → l.takeWhile p = l := by
  intro l h
  induction l with
  | nil => rfl
  | cons c rest ih =>
    simp only [List.takeWhile_cons, h c (by simp), if_true,
      ih (fun x hx => h x (by simp [hx]))]

/-- `parseInt` on an all-digits string returns its value. -/
theorem jsParseInt_digits {d : String} (hne : d.data ≠ [])
    (hd : ∀ c ∈ d.data, c.isDigit = true) :
    jsParseInt d = some ((digitsToNat d.data : Nat) : Int) := by
  obtain ⟨c, cs, hc⟩ : ∃ c cs, d.data = c :: cs := by
    cases hcase : d.data with
    | nil => exact absurd hcase hne
    | cons a as => exact ⟨a, as, rfl⟩
  have hcd : c.isDigit = true := hd c (by simp [hc])
  have hfacts := isDigit_facts c hcd
  have htake : (c :: cs).takeWhile Char.isDigit = c :: cs :=
    takeWhile_eq_self_of_all (c :: cs) (hc ▸ hd)
  simp only [jsParseInt, hc, List.dropWhile_cons, hfacts.2.2.2, Bool.false_eq_true, if_false,
    if_neg hfacts.2.1, if_neg hfacts.2.2.1, htake, List.isEmpty_cons]

/-- `getDefaultValue` on an all-digits default for an
    integer/bigint/numeric column returns its decimal numeral. -/
theorem getDefaultValue_int_digits {d ty : String} (hne : d.data ≠ [])
    (hd : ∀ c ∈ d.data, c.isDigit = true)
    (hty : ty = "integer" ∨ ty = "bigint" ∨ ty = "numeric") :
    getDefaultValue d ty = some (toString ((digitsToNat d.data : Nat) : Int)) := by
  have hdne : d ≠ "" := fun e => hne (by simp [e])
  have hnodigit : ∀ c ∈ d.data, c ≠ 'n' := fun c hc => (isDigit_facts c (hd c hc)).1
  have hnonext : strContains "nextval(" d = false :=
    strContainsAux_eq_false 'n' rfl hnodigit
  have hnonow : strContains "now()" d = false :=
    strContainsAux_eq_false 'n' rfl hnodigit
  have htext : ¬(ty = "text" ∨ ty = "character varying") := by
    rcases hty with rfl | rfl | rfl <;> decide
  simp only [getDefaultValue, if_neg hdne, hnonext, Bool.false_eq_true, if_false,
    hnonow, if_neg htext, if_pos hty, jsParseInt_digits hne hd]

/-- **C6.** Required-vs-default policy of `generateDartModel` for a
    non-nullable column: a default containing `nextval(` yields a required
    field with no baked-in default; no default at all yields a required
    field; an unrecognized default literal (one `getDefaultValue` cannot
    translate) falls back to a required field; an all-digits integer
    literal default on an integer/bigint/numeric column yields an optional
    field with that default baked in via `@Default(…)`. -/
theorem default_literal_policy (col : Column) (dt fn : String)
    (hnn : col.is_nullable = "NO") :
    (∀ d, col.column_default = some d → strContains "nextval(" d = true →
      fieldDeclLine col dt fn = "    required " ++ dt ++ " " ++ fn ++ ",\n")
    ∧ (col.column_default = none →
      fieldDeclLine col dt fn = "    required " ++ dt ++ " " ++ fn ++ ",\n")
    ∧ (∀ d, col.column_default = some d → d ≠ "" →
        getDefaultValue d col.data_type = none →
      fieldDeclLine col dt fn = "    required " ++ dt ++ " " ++ fn ++ ",\n")
    ∧ (∀ d, col.column_default = some d → d.data ≠ [] →
        (∀ c ∈ d.data, c.isDigit = true) →
        (col.data_type = "integer" ∨ col.data_type = "bigint" ∨ col.data_type = "numeric") →
      fieldDeclLine col dt fn =
        "    @Default(" ++ toString ((digitsToNat d.data : Nat) : Int) ++ ") "
          ++ dt ++ " " ++ fn ++ ",\n") := by
  refine ⟨?_, ?_, ?_, ?_⟩
  · intro d hdef hnext
    have hdne : d ≠ "" := by
      rintro rfl
      rw [show strContains "nextval(" "" = false from rfl] at hnext
      exact absurd hnext (by decide)
    have hgd : getDefaultValue d col.data_type = none := by
      simp only [getDefaultValue, if_neg hdne, hnext, if_true]
    simp only [fieldDeclLine, hnn, if_pos rfl, hdef, if_pos hdne, hgd, if_true]
  · intro hdef
    simp only [fieldDeclLine, hnn, if_pos rfl, hdef, if_true]
  · intro d hdef hdne hgd
    simp only [fieldDeclLine, hnn, if_pos rfl, hdef, if_pos hdne, hgd, if_true]
  · intro d hdef hne hd hty
    have hdne : d ≠ "" := fun e => hne (by simp [e])
    have hgd := getDefaultValue_int_digits hne hd hty
    simp only [fieldDeclLine, hnn, if_pos rfl, hdef, if_pos hdne, hgd, if_true]

/-- Witness for C6 at concrete columns: default `42` on an `integer` column
    bakes in `@Default(42)`; `nextval('users_id_seq'::regclass)` and a
    missing default both yield `required`. -/
theorem default_literal_policy_witness :
    fieldDeclLine
        { column_name := "count", data_type := "integer",
          is_nullable := "NO", column_default := some "42" } "int" "count"
      = "    @Default(42) int count,\n"
    ∧ fieldDeclLine
        { column_name := "id", data_type := "integer",
          is_nullable := "NO",
          column_default := some "nextval('users_id_seq'::regclass)" } "int" "id"
      = "    required int id,\n"
    ∧ fieldDeclLine
        { column_name := "name", data_type := "text",
          is_nullable := "NO" } "String" "name"
      = "    required String name,\n" := by
  refine ⟨?_, ?_, ?_⟩
  · rw [(default_literal_policy
      { column_name := "count", data_type := "integer",
        is_nullable := "NO", column_default := some "42" } "int" "count" rfl).2.2.2
      "42" rfl (by decide) (by decide) (Or.inl rfl)]
    decide
  · rw [(default_literal_policy
      { column_name := "id", data_type := "integer",
        is_nullable := "NO",
        column_default := some "nextval('users_id_seq'::regclass)" } "int" "id" rfl).1
      "nextval('users_id_seq'::regclass)" rfl (by decide)]
    decide
  · rw [(default_literal_policy
      { column_name := "name", data_type := "text",
        is_nullable := "NO" } "String" "name" rfl).2.1 rfl]
    decide

/-- A non-nullable text `status` column. -/
def statusColumn : Column :=
  { column_name := "status", data_type := "text", is_nullable := "NO" }

/-- A CHECK constraint whose clause has exactly the form the spec's example
    uses: `status = ANY (ARRAY['a','b'])`, with no outer parentheses. -/
def plainStatusCheck : Constraint :=
  { constraint_type := "CHECK", constraint_name := "users_status_check",
    check_clause := some "status = ANY (ARRAY['a','b'])" }

/-- The same CHECK constraint in PostgreSQL's stored (normalized) spelling,
    wrapped in doubled parentheses with `::text` casts. -/
def normalizedStatusCheck : Constraint :=
  { constraint_type := "CHECK", constraint_name := "users_status_check",
    check_clause := some "((status = ANY (ARRAY['a'::text, 'b'::text])))" }

set_option maxRecDepth 4096 in
/-- **C1 (counterexample).** A CHECK clause of exactly the claimed form
    `status = ANY (ARRAY['a','b'])` produces NO enum: the detection regex
    `/\(\((.*?) = ANY \(ARRAY\[(.*?)\]\)\)/` demands the doubled opening
    parentheses `((` and the closing `]))`, which this clause lacks, so the
    generated model contains no `StatusType` anywhere and the `status`
    field keeps the type-mapper result `String`. -/
theorem enum_detection_plain_clause_no_enum :
    extractEnumConstraints [plainStatusCheck] = []
    ∧ strContains "StatusType"
        (generateDartModel "users" [statusColumn] [plainStatusCheck] true) = false
    ∧ resolveFieldType statusColumn (extractEnumConstraints [plainStatusCheck]) = "String" := by
  refine ⟨by decide, by decide, by decide⟩

set_option maxRecDepth 4096 in
/-- **C1 (amended).** For a CHECK clause in PostgreSQL's stored form
    `((column = ANY (ARRAY[…])))` — here
    `((status = ANY (ARRAY['a'::text, 'b'::text])))` on column `status` —
    `generateDartModel` emits, before the class, one enum declaration named
    `PascalCase(column) + "Type"` whose members are the listed literal
    values in their listed order, and the generated field for that column
    has that enum type instead of the type-mapper result. -/
theorem enum_detection_normalized_clause :
    extractEnumConstraints [normalizedStatusCheck] = [("status", ["a", "b"])]
    ∧ enumDecl ("status", ["a", "b"]) =
        "enum StatusType \x7b\n  @JsonValue('a')\n  a,\n  @JsonValue('b')\n  b,\n\x7d\n\n"
    ∧ ((modelHeader "users" ++ enumDecl ("status", ["a", "b"])).data.isPrefixOf
        (generateDartModel "users" [statusColumn] [normalizedStatusCheck] true).data) = true
    ∧ strContains "required StatusType status"
        (generateDartModel "users" [statusColumn] [normalizedStatusCheck] true) = true
    ∧ resolveFieldType statusColumn (extractEnumConstraints [normalizedStatusCheck])
        = "StatusType" := by
  refine ⟨by decide, by decide, by decide, by decide, by decide⟩

end SupabaseDartExporter
